import Mathlib

/-!
Verification of the music block of i3status-rust (src/blocks/music.rs).

The D-Bus variant values are modelled as a small tagged union `Variant`
with the typed accessors `as_str` and `as_iter` the Rust code uses
(dbus-rs `RefArg`): `as_str` succeeds only on a scalar string, `as_iter`
only on an aggregate, which we model as a list of variants. A metadata
bag is iterated as an alternating key/value list, exactly as the Rust
`while let Some(key) = iter.next()` loop does.

Durations are modelled in whole milliseconds (`Nat`): `some 1000` stands
for `Some(Duration::new(1, 0))` and `some 500` for the half-second
advance duration.
-/

inductive Variant where
  | vstr : String → Variant
  | vint : Int → Variant
  | varr : List Variant → Variant

def Variant.as_str : Variant → Option String
  | .vstr s => some s
  | _ => none

def Variant.as_iter : Variant → Option (List Variant)
  | .varr l => some l
  | _ => none

/-- The `block_error` combinator of the Rust code: turn an `Option`
into a `Result`, tagging the failure with a message. -/
def block_error {α : Type} (msg : String) : Option α → Except String α
  | some a => .ok a
  | none => .error msg

/-- The artist extraction chain of `extract_from_metadata`
(music.rs lines 241-258): descend three `as_iter`/`nth(0)` levels,
then read the innermost value with `as_str`. -/
def extract_artist (value : Variant) : Except String String := do
  let l1 ← block_error "failed to extract metadata" value.as_iter
  let v1 ← block_error "failed to extract metadata" l1.head?
  let l2 ← block_error "failed to extract metadata" v1.as_iter
  let v2 ← block_error "failed to extract metadata" l2.head?
  let l3 ← block_error "failed to extract metadata" v2.as_iter
  let v3 ← block_error "failed to extract metadata" l3.head?
  block_error "failed to extract metadata" v3.as_str

/-- The key/value loop of `extract_from_metadata` (music.rs lines
234-267): take a key, then its value (missing value is an error), the
key must be a scalar string; `xesam:artist` runs the nesting descent,
`xesam:title` reads a scalar string, other keys are ignored. -/
def extract_loop : List Variant → String → String → Except String (String × String)
  | [], title, artist => .ok (title, artist)
  | _ :: [], _, _ => .error "failed to extract metadata"
  | key :: value :: rest, title, artist =>
    match key.as_str with
    | none => .error "failed to extract metadata"
    | some k =>
      match k with
      | "xesam:artist" =>
        match extract_artist value with
        | .error e => .error e
        | .ok artist2 => extract_loop rest title artist2
      | "xesam:title" =>
        match value.as_str with
        | none => .error "failed to extract metadata"
        | some title2 => extract_loop rest title2 artist
      | _ => extract_loop rest title artist

/-- `extract_from_metadata` (music.rs lines 226-269). -/
def extract_from_metadata (metadata : Variant) : Except String (String × String) := do
  let l ← block_error "failed to extract metadata" metadata.as_iter
  extract_loop l "" ""

/-- The `Music` block state (music.rs lines 19-29). `full_text` and
`max_width` stand for the `RotatingTextWidget` field `current_song`:
the canonical text it owns and its configured width. `play` holds the
play/pause button's current icon name when that button is configured;
`prev` and `next` record whether those buttons are configured (their
icons never change). -/
structure Music where
  full_text : String
  max_width : Nat
  prev : Bool
  play : Option String
  next : Bool
  player_avail : Bool
  marquee : Bool
  player : String
deriving DecidableEq, Repr

/-- Abstraction of the rotation timer's timing state: still in the
initial hold phase, or due for an advance step. -/
inductive RotPhase where
  | holding
  | advancing
deriving DecidableEq, Repr

/-- Modelled from the spec: `RotatingTextWidget::next` lives in
widgets/rotatingtext.rs, which is not part of the sources; section 4.2
of the spec describes it. If the text fits within `max_width` it
returns `(false, None)`; if the text exceeds the width it returns
`(false, Some(1s))` on each hold-phase tick and `(true,
Some(advance_duration))` (advance duration 0.5s, music.rs line 113) on
an advance tick. -/
def rotating_next (full_text : String) (max_width : Nat) (phase : RotPhase) :
    Bool × Option Nat :=
  if full_text.length ≤ max_width then (false, none)
  else
    match phase with
    | .holding => (false, some 1000)
    | .advancing => (true, some 500)

/-- The metadata half of `Music::update` (music.rs lines 139-155):
on a failed "Metadata" query clear the text and mark the player
unavailable; on success run the decoder, defaulting both fields to
empty strings on a decode error, set the "title | artist" text and
mark the player available. -/
def apply_metadata (s : Music) (data : Except String Variant) : Music :=
  match data with
  | .error _ => { s with full_text := "", player_avail := false }
  | .ok metadata =>
    let p := (extract_from_metadata metadata).toOption.getD ("", "")
    { s with full_text := p.1 ++ " | " ++ p.2, player_avail := true }

/-- The playback-status half of `Music::update` (music.rs lines
156-169): only when a play button is configured, query
"PlaybackStatus"; on failure set the play icon; on success set the
play icon when the status is a string different from "Playing", and
the pause icon otherwise. -/
def apply_playback (s : Music) (data : Except String Variant) : Music :=
  match s.play with
  | none => s
  | some _ =>
    match data with
    | .error _ => { s with play := some "music_play" }
    | .ok d =>
      if (d.as_str.map (fun str => str != "Playing")).getD false then
        { s with play := some "music_play" }
      else
        { s with play := some "music_pause" }

/-- The rotation step of `Music::update` (music.rs line 137): call
the rotating text widget only when the marquee is enabled, otherwise
use `(false, None)`. -/
def rot_result (s : Music) (phase : RotPhase) : Bool × Option Nat :=
  if s.marquee then rotating_next s.full_text s.max_width phase else (false, none)

/-- `Music::update` (music.rs lines 136-176). The bus is modelled by
the two query results `metadata` and `playback`; the rotation timer's
timing state by `phase`. Returns the new state and the next wake
delay in milliseconds. -/
def Music.update (s : Music) (phase : RotPhase)
    (metadata : Except String Variant) (playback : Except String Variant) :
    Music × Option Nat :=
  (if (rot_result s phase).1 then s
   else apply_playback (apply_metadata s metadata) playback,
   match (rot_result s phase).2, s.marquee with
   | some _, _ => (rot_result s phase).2
   | none, true => some 1000
   | none, false => none)

/-- A rendered element, by identity: the rotating text widget or one
of the three buttons. -/
inductive Element where
  | text
  | prevBtn
  | playBtn
  | nextBtn
deriving DecidableEq, Repr

/-- `Music::view` (music.rs lines 206-223): when the player is
available, push the text widget and then each configured button; when
unavailable, only the text widget. -/
def Music.view (s : Music) : List Element :=
  if s.player_avail then
    Id.run do
      let mut elements : List Element := []
      elements := elements ++ [Element.text]
      if s.prev then
        elements := elements ++ [Element.prevBtn]
      if s.play.isSome then
        elements := elements ++ [Element.playBtn]
      if s.next then
        elements := elements ++ [Element.nextBtn]
      return elements
  else
    [Element.text]

/-- The action-name mapping of `Music::click` (music.rs lines
181-186). -/
def click_action (name : String) : String :=
  match name with
  | "play" => "PlayPause"
  | "next" => "Next"
  | "prev" => "Previous"
  | _ => ""

/-- A D-Bus method call as built at music.rs lines 188-192. -/
structure MethodCall where
  dest : String
  path : String
  iface : String
  member : String
deriving DecidableEq, Repr

/-- The method call `Music::click` builds (music.rs lines 188-192):
destination `org.mpris.MediaPlayer2.<player>`, the MediaPlayer2
object path and player interface, and the mapped method name. -/
def player_call (s : Music) (method : String) : MethodCall :=
  { dest := "org.mpris.MediaPlayer2." ++ s.player
    path := "/org/mpris/MediaPlayer2"
    iface := "org.mpris.MediaPlayer2.Player"
    member := method }

/-- `Music::click` (music.rs lines 179-204). `send` is the result the
bus connection would give for sending a message (covering both
message-construction and send failure, each of which the code
propagates). Returns the click result together with the list of
method calls issued. -/
def Music.click (s : Music) (event_name : Option String)
    (send : Except String Unit) : Except String Unit × List MethodCall :=
  match event_name with
  | none => (.ok (), [])
  | some name =>
    let action := click_action name
    if action != "" then
      match send with
      | .error e => (.error e, [player_call s action])
      | .ok _ => (.ok (), [player_call s action])
    else
      (.ok (), [])

/-- The configured buttons, mirroring the three `Option<ButtonWidget>`
fields built at construction. -/
structure ButtonSet where
  prev : Bool
  play : Bool
  next : Bool
deriving DecidableEq, Repr

/-- The button-configuration loop of `ConfigBlock::new` for `Music`
(music.rs lines 92-108): recognize "play", "next" and "prev", fail on
anything else. -/
def parse_buttons_loop : List String → ButtonSet → Except String ButtonSet
  | [], acc => .ok acc
  | b :: rest, acc =>
    match b with
    | "play" => parse_buttons_loop rest { acc with play := true }
    | "next" => parse_buttons_loop rest { acc with next := true }
    | "prev" => parse_buttons_loop rest { acc with prev := true }
    | x => .error ("unknown music button identifier: " ++ x)

/-- Button parsing as `ConfigBlock::new` performs it, starting with no
buttons configured. -/
def parse_buttons (buttons : List String) : Except String ButtonSet :=
  parse_buttons_loop buttons { prev := false, play := false, next := false }


/-! ## Sample inputs used by witnesses and counterexamples -/

/-- A well-formed bag: title `"Song"` and artist nested three levels
deep, as `extract_from_metadata` expects. -/
def sample_good_bag : Variant :=
  .varr [.vstr "xesam:title", .vstr "Song",
         .vstr "xesam:artist", .varr [.varr [.varr [.vstr "Artist"]]]]

/-- A bag whose title is fine but whose artist is nested only two
levels instead of three. -/
def sample_shallow_artist_bag : Variant :=
  .varr [.vstr "xesam:title", .vstr "Song",
         .vstr "xesam:artist", .varr [.varr [.vstr "Queen"]]]

/-- A bag with a valid title pair followed by a non-string key. -/
def sample_bad_key_bag : List Variant :=
  [.vstr "xesam:title", .vstr "Song", .vint 7, .vstr "x"]

/-- A state whose text fits within the configured width, marquee
enabled, no buttons configured. -/
def sample_fit_state : Music :=
  { full_text := "hi"
    max_width := 21
    prev := false
    play := none
    next := false
    player_avail := false
    marquee := true
    player := "spotify" }

/-- A state with the play button configured and the marquee disabled
(so an update is never short-circuited by a rotation tick). -/
def sample_play_state : Music :=
  { sample_fit_state with marquee := false, play := some "music_play" }

/-- A state whose text exceeds the configured width, marquee enabled:
on an advance tick the rotation short-circuit triggers. -/
def sample_long_state : Music :=
  { sample_fit_state with full_text := "abcdef", max_width := 2 }

/-! ## Helper lemmas -/

theorem apply_metadata_fields (s : Music) (d : Except String Variant) :
    (apply_metadata s d).play = s.play
    ∧ (apply_metadata s d).marquee = s.marquee
    ∧ (apply_metadata s d).prev = s.prev
    ∧ (apply_metadata s d).next = s.next
    ∧ (apply_metadata s d).max_width = s.max_width
    ∧ (apply_metadata s d).player = s.player := by
  cases d <;> simp [apply_metadata]

theorem apply_playback_fields (s : Music) (d : Except String Variant) :
    (apply_playback s d).full_text = s.full_text
    ∧ (apply_playback s d).player_avail = s.player_avail
    ∧ (apply_playback s d).marquee = s.marquee
    ∧ (apply_playback s d).prev = s.prev
    ∧ (apply_playback s d).next = s.next
    ∧ (apply_playback s d).player = s.player := by
  cases hp : s.play <;> cases d <;> simp [apply_playback, hp]
  split <;> simp

theorem update_not_rotated (s : Music) (phase : RotPhase)
    (md pb : Except String Variant) (hrot : (rot_result s phase).1 = false) :
    (Music.update s phase md pb).1 = apply_playback (apply_metadata s md) pb := by
  simp [Music.update, hrot]

theorem update_decode_error_defaults (s : Music) (phase : RotPhase)
    (m : Variant) (pb : Except String Variant) (e : String)
    (hrot : (rot_result s phase).1 = false)
    (hdec : extract_from_metadata m = .error e) :
    (Music.update s phase (.ok m) pb).1.full_text = " | "
    ∧ (Music.update s phase (.ok m) pb).1.player_avail = true := by
  rw [update_not_rotated s phase (.ok m) pb hrot]
  have hm : apply_metadata s (.ok m) =
      { s with full_text := " | ", player_avail := true } := by
    simp only [apply_metadata, hdec]
    rfl
  rw [hm]
  exact ⟨(apply_playback_fields _ _).1, (apply_playback_fields _ _).2.1⟩

theorem extract_loop_bad_key :
    ∀ (i : Nat) (l : List Variant) (t a : String) (k : Variant),
      l.get? (2 * i) = some k → k.as_str = none →
      ∃ e, extract_loop l t a = .error e := by
  intro i
  induction i with
  | zero =>
    intro l t a k hk hs
    match l with
    | [] => simp at hk
    | [x] => exact ⟨"failed to extract metadata", rfl⟩
    | key :: value :: rest =>
      have hkey : key = k := by simpa using hk
      subst hkey
      refine ⟨"failed to extract metadata", ?_⟩
      simp only [extract_loop, hs]
  | succ i ih =>
    intro l t a k hk hs
    match l with
    | [] => simp at hk
    | [x] =>
      match i with
      | 0 => simp at hk
      | _ + 1 => simp [Nat.mul_succ] at hk
    | key :: value :: rest =>
      have hk' : rest.get? (2 * i) = some k := by
        have h2 : 2 * (i + 1) = 2 * i + 1 + 1 := by ring
        rw [h2] at hk
        simpa using hk
      cases hks : key.as_str with
      | none => exact ⟨"failed to extract metadata", by simp only [extract_loop, hks]⟩
      | some ks =>
        simp only [extract_loop, hks]
        split
        · cases hea : extract_artist value with
          | error e => exact ⟨e, by simp only [hea]⟩
          | ok artist2 =>
            obtain ⟨e, he⟩ := ih rest t artist2 k hk' hs
            exact ⟨e, by simp only [hea, he]⟩
        · cases hev : value.as_str with
          | none => exact ⟨"failed to extract metadata", by simp only [hev]⟩
          | some title2 =>
            obtain ⟨e, he⟩ := ih rest title2 a k hk' hs
            exact ⟨e, by simp only [hev, he]⟩
        · exact ih rest t a k hk' hs

/-! ## Claim theorems -/

/-- C1 counterexample: in a bag whose title is the scalar string
`"Song"` but whose artist is nested only two levels instead of three,
decoding does NOT yield the extracted title with an empty artist:
`extract_from_metadata` fails for the whole bag, the caller defaults
BOTH fields, and the displayed text becomes `" | "` — the
already-extracted title is discarded. -/
theorem music_malformed_artist_counterexample :
    extract_from_metadata sample_shallow_artist_bag =
      .error "failed to extract metadata"
    ∧ (extract_from_metadata sample_shallow_artist_bag).toOption.getD ("", "")
        ≠ ("Song", "")
    ∧ (Music.update sample_play_state RotPhase.holding
        (.ok sample_shallow_artist_bag) (.error "q")).1.full_text = " | " :=
  ⟨rfl, by decide, rfl⟩

/-- C1 (amended): when the artist field (or any field) of the bag is
malformed, `extract_from_metadata` fails for the whole bag and
`Music::update` defaults BOTH title and artist to the empty string,
displaying `" | "`; the failure never surfaces as an error — the
update proceeds normally and still marks the player available. -/
theorem music_malformed_field_defaults_both (s : Music) (phase : RotPhase)
    (m : Variant) (pb : Except String Variant) (e : String)
    (hrot : (rot_result s phase).1 = false)
    (hdec : extract_from_metadata m = .error e) :
    (Music.update s phase (.ok m) pb).1.full_text = " | "
    ∧ (Music.update s phase (.ok m) pb).1.player_avail = true :=
  update_decode_error_defaults s phase m pb e hrot hdec

/-- C1 witness: the amended claim instantiated at the concrete
two-level artist bag, with the marquee disabled so the update is not
short-circuited. -/
theorem music_malformed_field_defaults_both_witness :
    (Music.update sample_play_state RotPhase.holding
      (.ok sample_shallow_artist_bag) (.error "q")).1.full_text = " | "
    ∧ (Music.update sample_play_state RotPhase.holding
      (.ok sample_shallow_artist_bag) (.error "q")).1.player_avail = true :=
  music_malformed_field_defaults_both sample_play_state RotPhase.holding
    sample_shallow_artist_bag (.error "q") "failed to extract metadata" rfl rfl

/-- C9: a key that is not a scalar string at any (even) position of
the bag makes `extract_from_metadata` fail for the whole bag, and the
caller then defaults both title and artist to the empty string
(displayed text `" | "`) — even a title successfully decoded from an
earlier pair is discarded. -/
theorem music_nonstring_key_poisons_bag (l : List Variant) (i : Nat)
    (k : Variant) (s : Music) (phase : RotPhase) (pb : Except String Variant)
    (hk : l.get? (2 * i) = some k) (hstr : k.as_str = none)
    (hrot : (rot_result s phase).1 = false) :
    (∃ e, extract_from_metadata (Variant.varr l) = .error e)
    ∧ (Music.update s phase (.ok (Variant.varr l)) pb).1.full_text = " | " := by
  obtain ⟨e, he⟩ := extract_loop_bad_key i l "" "" k hk hstr
  have hbag : extract_from_metadata (Variant.varr l) = .error e := by
    show Except.bind (block_error "failed to extract metadata"
      (Variant.as_iter (Variant.varr l))) (fun l2 => extract_loop l2 "" "") = _
    simpa [block_error, Variant.as_iter] using he
  exact ⟨⟨e, hbag⟩,
    (update_decode_error_defaults s phase (Variant.varr l) pb e hrot hbag).1⟩

/-- C9 witness: the bag `[title ↦ "Song", 7 ↦ "x"]` has a valid title
pair followed by the non-string key `7`; the whole decode fails and
the title `"Song"` is discarded. -/
theorem music_nonstring_key_poisons_bag_witness :
    (∃ e, extract_from_metadata (Variant.varr sample_bad_key_bag) = .error e)
    ∧ (Music.update sample_play_state RotPhase.holding
        (.ok (Variant.varr sample_bad_key_bag)) (.error "q")).1.full_text
        = " | " :=
  music_nonstring_key_poisons_bag sample_bad_key_bag 1 (.vint 7)
    sample_play_state RotPhase.holding (.error "q") rfl rfl rfl

/-- C2 counterexample: with the marquee enabled and a text that fits
within `max_width`, `update()` returns `Some(1s)`, not `None` as the
claim states. -/
theorem music_fitting_text_counterexample :
    sample_fit_state.marquee = true
    ∧ sample_fit_state.full_text.length ≤ sample_fit_state.max_width
    ∧ (Music.update sample_fit_state RotPhase.holding
        (.error "e") (.error "e")).2 = some 1000
    ∧ (Music.update sample_fit_state RotPhase.holding
        (.error "e") (.error "e")).2 ≠ none :=
  ⟨rfl, by decide, rfl, by decide⟩

/-- C2 (amended): `update()` returns `None` exactly when the marquee
is disabled; when the marquee is enabled it returns the rotation
timer's own hint when one was produced, and `Some(1s)` otherwise —
even when the text fits within `max_width`. -/
theorem music_update_wake_hint (s : Music) (phase : RotPhase)
    (md pb : Except String Variant) :
    ((Music.update s phase md pb).2 = none ↔ s.marquee = false)
    ∧ (s.marquee = true →
        (Music.update s phase md pb).2 =
          match (rotating_next s.full_text s.max_width phase).2 with
          | some d => some d
          | none => some 1000) := by
  cases hm : s.marquee with
  | false => simp [Music.update, rot_result, hm]
  | true =>
    cases hh : (rotating_next s.full_text s.max_width phase).2 with
    | none => simp [Music.update, rot_result, hm, hh]
    | some d => simp [Music.update, rot_result, hm, hh]

/-- C2 witness: the amended claim at a concrete fitting text — the
timer produces no hint and `update()` returns `Some(1s)`. -/
theorem music_update_wake_hint_witness :
    (Music.update sample_fit_state RotPhase.holding
      (.error "a") (.error "b")).2 = some 1000 :=
  (music_update_wake_hint sample_fit_state RotPhase.holding
    (.error "a") (.error "b")).2 rfl

/-- C3 counterexample: a successful "PlaybackStatus" query returning
a non-string value sets the PAUSE icon, not the play icon as the
claim states. -/
theorem music_nonstring_status_counterexample :
    (Music.update sample_play_state RotPhase.holding
      (.error "m") (.ok (Variant.vint 5))).1.play = some "music_pause"
    ∧ (Music.update sample_play_state RotPhase.holding
      (.error "m") (.ok (Variant.vint 5))).1.play ≠ some "music_play" :=
  ⟨rfl, by decide⟩

/-- C3 (amended): with a play button configured and no rotation
short-circuit, the play icon is set to the play icon exactly when the
query fails or the status is a string different from `"Playing"`; on
a status equal to `"Playing"` — or any non-string status value — the
icon is set to the pause icon. -/
theorem music_play_icon_rule (s : Music) (phase : RotPhase)
    (md pb : Except String Variant)
    (hplay : s.play.isSome = true)
    (hrot : (rot_result s phase).1 = false) :
    (Music.update s phase md pb).1.play =
      match pb with
      | .error _ => some "music_play"
      | .ok d =>
        match d.as_str with
        | none => some "music_pause"
        | some str =>
          if str = "Playing" then some "music_pause" else some "music_play" := by
  rw [update_not_rotated s phase md pb hrot]
  have hp : (apply_metadata s md).play = s.play := (apply_metadata_fields s md).1
  obtain ⟨icon, hicon⟩ := Option.isSome_iff_exists.mp hplay
  cases pb with
  | error e => simp [apply_playback, hp, hicon]
  | ok d =>
    cases hd : d.as_str with
    | none => simp [apply_playback, hp, hicon, hd]
    | some str =>
      by_cases hstr : str = "Playing"
      · simp [apply_playback, hp, hicon, hd, hstr]
      · simp [apply_playback, hp, hicon, hd, hstr]

/-- C3 witness: the amended rule at a concrete `"Playing"` status. -/
theorem music_play_icon_rule_witness :
    (Music.update sample_play_state RotPhase.holding
      (.error "m") (.ok (Variant.vstr "Playing"))).1.play = some "music_pause" :=
  music_play_icon_rule sample_play_state RotPhase.holding
    (.error "m") (.ok (Variant.vstr "Playing")) rfl rfl

/-- C4: an update not short-circuited by a rotation tick sets, on a
failed "Metadata" query, the empty text and availability `false`; on
a successful query it runs the decoder and sets the text
`"{title} | {artist}"` and availability `true`. -/
theorem music_update_metadata_flow (s : Music) (phase : RotPhase)
    (pb : Except String Variant)
    (hrot : (rot_result s phase).1 = false) :
    (∀ e, (Music.update s phase (.error e) pb).1.full_text = ""
      ∧ (Music.update s phase (.error e) pb).1.player_avail = false)
    ∧ (∀ m, (Music.update s phase (.ok m) pb).1.full_text =
          ((extract_from_metadata m).toOption.getD ("", "")).1 ++ " | " ++
            ((extract_from_metadata m).toOption.getD ("", "")).2
      ∧ (Music.update s phase (.ok m) pb).1.player_avail = true) := by
  constructor
  · intro e
    rw [update_not_rotated s phase (.error e) pb hrot]
    have h := apply_playback_fields (apply_metadata s (.error e)) pb
    rw [h.1, h.2.1]
    exact ⟨rfl, rfl⟩
  · intro m
    rw [update_not_rotated s phase (.ok m) pb hrot]
    have h := apply_playback_fields (apply_metadata s (.ok m)) pb
    rw [h.1, h.2.1]
    exact ⟨rfl, rfl⟩

/-- C4 witness: a well-formed bag yields `"Song | Artist"` and
availability `true`. -/
theorem music_update_metadata_flow_witness :
    (Music.update sample_play_state RotPhase.holding
      (.ok sample_good_bag) (.error "q")).1.full_text = "Song | Artist"
    ∧ (Music.update sample_play_state RotPhase.holding
      (.ok sample_good_bag) (.error "q")).1.player_avail = true := by
  have h := (music_update_metadata_flow sample_play_state RotPhase.holding
    (.error "q") rfl).2 sample_good_bag
  exact ⟨h.1.trans rfl, h.2⟩

/-- A state with every button configured but the player unavailable. -/
def sample_unavail_buttons_state : Music :=
  { sample_play_state with prev := true, next := true }

/-- An available state with the prev and play buttons configured. -/
def sample_avail_state : Music :=
  { sample_play_state with player_avail := true, prev := true }

/-- An available state with all three buttons configured. -/
def sample_live_state : Music :=
  { sample_fit_state with
    player_avail := true, prev := true, play := some "music_play", next := true }

/-- C5: when the player is unavailable, `view()` exposes exactly the
text widget, whatever buttons are configured; when available, it
exposes the text widget followed by the configured buttons in the
fixed order prev, play, next. -/
theorem music_view_structure (s : Music) :
    (s.player_avail = false → Music.view s = [Element.text])
    ∧ (s.player_avail = true →
        Music.view s = Element.text ::
          ((if s.prev then [Element.prevBtn] else [])
            ++ (if s.play.isSome then [Element.playBtn] else [])
            ++ (if s.next then [Element.nextBtn] else []))) := by
  cases hpa : s.player_avail <;>
    cases hpr : s.prev <;> cases hpl : s.play <;> cases hnx : s.next <;>
      simp [Music.view, hpa, hpr, hpl, hnx, Id.run]

/-- C5 witness: an unavailable state with all buttons configured
renders one element; an available state with prev and play renders
text, prev, play. -/
theorem music_view_structure_witness :
    Music.view sample_unavail_buttons_state = [Element.text]
    ∧ Music.view sample_avail_state =
        [Element.text, Element.prevBtn, Element.playBtn] := by
  constructor
  · exact (music_view_structure sample_unavail_buttons_state).1 rfl
  · exact ((music_view_structure sample_avail_state).2 rfl).trans rfl

/-- C6: when the rotation timer reports an advance, `update()`
returns the state entirely unchanged (availability, text and play
icon included) and is independent of the bus query results — no bus
query is consulted. -/
theorem music_update_rotated_short_circuit (s : Music) (phase : RotPhase)
    (md md2 pb pb2 : Except String Variant)
    (hrot : (rot_result s phase).1 = true) :
    (Music.update s phase md pb).1 = s
    ∧ Music.update s phase md pb = Music.update s phase md2 pb2 := by
  simp [Music.update, hrot]

/-- C6 witness: a long text on an advance tick leaves the state
untouched for two different pairs of bus answers. -/
theorem music_update_rotated_short_circuit_witness :
    (Music.update sample_long_state RotPhase.advancing
      (.error "a") (.ok (Variant.vint 1))).1 = sample_long_state
    ∧ Music.update sample_long_state RotPhase.advancing
        (.error "a") (.ok (Variant.vint 1))
      = Music.update sample_long_state RotPhase.advancing
        (.ok (Variant.vstr "x")) (.error "b") :=
  music_update_rotated_short_circuit sample_long_state RotPhase.advancing
    (.error "a") (.ok (Variant.vstr "x")) (.ok (Variant.vint 1)) (.error "b") rfl

/-- C7: `click()` maps "play" to a single `PlayPause` call, "next" to
`Next`, "prev" to `Previous`, propagating the send result; any other
name, or an absent name, issues no call and returns success. -/
theorem music_click_action_map (s : Music) (send : Except String Unit) :
    Music.click s (some "play") send = (send, [player_call s "PlayPause"])
    ∧ Music.click s (some "next") send = (send, [player_call s "Next"])
    ∧ Music.click s (some "prev") send = (send, [player_call s "Previous"])
    ∧ (∀ name, name ≠ "play" → name ≠ "next" → name ≠ "prev" →
        Music.click s (some name) send = (.ok (), []))
    ∧ Music.click s none send = (.ok (), []) := by
  refine ⟨?_, ?_, ?_, ?_, rfl⟩
  · cases send with
    | error e => rfl
    | ok u => cases u; rfl
  · cases send with
    | error e => rfl
    | ok u => cases u; rfl
  · cases send with
    | error e => rfl
    | ok u => cases u; rfl
  · intro name h1 h2 h3
    have ha : click_action name = "" := by
      unfold click_action
      split <;> simp_all
    simp [Music.click, ha]

/-- C7 witness: "prev" issues exactly the `Previous` call and
propagates a send failure; "stop" issues nothing and succeeds. -/
theorem music_click_action_map_witness :
    Music.click sample_fit_state (some "prev") (.error "boom")
      = (.error "boom", [player_call sample_fit_state "Previous"])
    ∧ Music.click sample_fit_state (some "stop") (.error "boom") = (.ok (), []) := by
  have h := music_click_action_map sample_fit_state (.error "boom")
  exact ⟨h.2.2.1, h.2.2.2.1 "stop" (by decide) (by decide) (by decide)⟩

theorem parse_buttons_loop_ok (buttons : List String) :
    ∀ acc, (∀ b ∈ buttons, b = "play" ∨ b = "next" ∨ b = "prev") →
      ∃ bs, parse_buttons_loop buttons acc = .ok bs := by
  induction buttons with
  | nil => exact fun acc _ => ⟨acc, rfl⟩
  | cons b rest ih =>
    intro acc h
    rcases h b (List.mem_cons_self b rest) with hb | hb | hb <;>
      subst hb <;>
      exact ih _ (fun x hx => h x (List.mem_cons_of_mem _ hx))

theorem parse_buttons_loop_err (buttons : List String) :
    ∀ acc x, x ∈ buttons → x ≠ "play" → x ≠ "next" → x ≠ "prev" →
      ∃ e, parse_buttons_loop buttons acc = .error e := by
  induction buttons with
  | nil => intro acc x hx _ _ _; simp at hx
  | cons b rest ih =>
    intro acc x hx h1 h2 h3
    by_cases hb1 : b = "play"
    · subst hb1
      have hx' : x ∈ rest := by
        rcases List.mem_cons.mp hx with h | h
        · exact absurd h h1
        · exact h
      exact ih _ x hx' h1 h2 h3
    · by_cases hb2 : b = "next"
      · subst hb2
        have hx' : x ∈ rest := by
          rcases List.mem_cons.mp hx with h | h
          · exact absurd h h2
          · exact h
        exact ih _ x hx' h1 h2 h3
      · by_cases hb3 : b = "prev"
        · subst hb3
          have hx' : x ∈ rest := by
            rcases List.mem_cons.mp hx with h | h
            · exact absurd h h3
            · exact h
          exact ih _ x hx' h1 h2 h3
        · refine ⟨"unknown music button identifier: " ++ b, ?_⟩
          simp only [parse_buttons_loop]

/-- C8: a buttons list holding any identifier other than "play",
"next" or "prev" makes button construction fail; a list drawn only
from those three always parses. -/
theorem music_unknown_button_fatal (buttons : List String) :
    ((∃ b ∈ buttons, b ≠ "play" ∧ b ≠ "next" ∧ b ≠ "prev") →
      ∃ e, parse_buttons buttons = .error e)
    ∧ ((∀ b ∈ buttons, b = "play" ∨ b = "next" ∨ b = "prev") →
      ∃ bs, parse_buttons buttons = .ok bs) := by
  constructor
  · rintro ⟨x, hx, hx1, hx2, hx3⟩
    exact parse_buttons_loop_err buttons _ x hx hx1 hx2 hx3
  · intro h
    exact parse_buttons_loop_ok buttons _ h

/-- C8 witness: `["play", "bogus"]` fails, `["prev", "play", "next"]`
parses. -/
theorem music_unknown_button_fatal_witness :
    (∃ e, parse_buttons ["play", "bogus"] = .error e)
    ∧ (∃ bs, parse_buttons ["prev", "play", "next"] = .ok bs) := by
  constructor
  · exact (music_unknown_button_fatal ["play", "bogus"]).1
      ⟨"bogus", by decide, by decide, by decide, by decide⟩
  · exact (music_unknown_button_fatal ["prev", "play", "next"]).2 (by decide)

/-- C10: `click()` consults neither the availability flag nor the
configured buttons — two states agreeing on the player name click
identically, and a recognized name always issues exactly one call. -/
theorem music_click_ignores_widget_state (s t : Music) (ev : Option String)
    (send : Except String Unit) (hp : s.player = t.player) :
    Music.click s ev send = Music.click t ev send
    ∧ (∀ name, name = "play" ∨ name = "next" ∨ name = "prev" →
        (Music.click s (some name) send).2.length = 1) := by
  constructor
  · cases ev with
    | none => rfl
    | some name => simp only [Music.click, player_call, hp]
  · rintro name (h | h | h) <;> subst h <;> cases send <;> rfl

/-- C10 witness: an unavailable, button-less state clicks exactly as
a fully available state with all buttons, and "play" issues one
call even there. -/
theorem music_click_ignores_widget_state_witness :
    Music.click sample_fit_state (some "play") (.ok ())
      = Music.click sample_live_state (some "play") (.ok ())
    ∧ (Music.click sample_fit_state (some "play") (.ok ())).2.length = 1 := by
  have h := music_click_ignores_widget_state sample_fit_state sample_live_state
    (some "play") (.ok ()) rfl
  exact ⟨h.1, h.2 "play" (Or.inl rfl)⟩
